import Mathlib

/-!
Shallow embedding of `cpp/example_code/sns/get_subscription_attributes.cpp`.

The AWS SDK collaborator is a black box: the `SNSClient` constructed from the
client configuration is modelled as an oracle function from requests to
outcomes.  Console state is modelled explicitly: a `World` carries the lines
written so far to standard output and standard error, plus an abstract `rest`
component standing for every other piece of process state, so that frame
properties can be stated.  The embedding additionally records the list of
requests submitted to the remote service, so that "the remote call is invoked
exactly once" is statable.
-/

/-- Request type of the remote call: `Aws::SNS::Model::GetSubscriptionAttributesRequest`
with its one field set by `request.SetSubscriptionArn(topicARN)`. -/
structure GetSubscriptionAttributesRequest where
  subscriptionArn : String
  deriving DecidableEq, Repr

/-- Result type of the remote call, carrying the attribute mapping returned by
`outcome.GetResult().GetAttributes()`.  The C++ `Aws::Map` is modelled as a
list of key/value pairs. -/
structure GetSubscriptionAttributesResult where
  attributes : List (String × String)
  deriving DecidableEq, Repr

/-- Error object of a failing outcome, carrying `GetError().GetMessage()`. -/
structure AWSError where
  message : String
  deriving DecidableEq, Repr

/-- Discriminated outcome of the remote call, as in the AWS SDK `Outcome`
template: a success flag, a result object and an error object. -/
structure GetSubscriptionAttributesOutcome where
  isSuccess : Bool
  result : GetSubscriptionAttributesResult
  error : AWSError
  deriving DecidableEq, Repr

/-- Process state: the lines written so far to `std::cout` and `std::cerr`,
plus an abstract component `rest` standing for all other process state. -/
structure World (σ : Type) where
  stdout : List String
  stderr : List String
  rest : σ
  deriving Repr

/-- Writing one line (text followed by `std::endl`) to `std::cout`. -/
def coutLine {σ : Type} (w : World σ) (s : String) : World σ :=
  { w with stdout := w.stdout ++ [s] }

/-- Writing one line (text followed by `std::endl`) to `std::cerr`. -/
def cerrLine {σ : Type} (w : World σ) (s : String) : World σ :=
  { w with stderr := w.stderr ++ [s] }

/-- Result of one run of `AwsDoc::SNS::getSubscriptionAttributes`: the returned
boolean, the final world, and the requests submitted to the remote service. -/
structure RunResult (σ : Type) where
  returned : Bool
  world : World σ
  submittedRequests : List GetSubscriptionAttributesRequest
  deriving Repr

namespace AwsDoc
namespace SNS

/-- Embedding of `AwsDoc::SNS::getSubscriptionAttributes`.  The `snsClient`
oracle stands for the SDK client constructed from the caller's configuration;
applying it is the single remote `GetSubscriptionAttributes` call.  The
function builds the request from `topicARN`, submits it, and on success prints
the header line and one line per attribute pair to `std::cout`, while on
failure it prints one error line to `std::cerr`; it returns
`outcome.IsSuccess()`. -/
def getSubscriptionAttributes {σ : Type}
    (snsClient : GetSubscriptionAttributesRequest → GetSubscriptionAttributesOutcome)
    (topicARN : String) (w : World σ) : RunResult σ :=
  let request : GetSubscriptionAttributesRequest := { subscriptionArn := topicARN }
  let outcome := snsClient request
  if outcome.isSuccess then
    let w1 := coutLine w "Topic Attributes:"
    let w2 := outcome.result.attributes.foldl
      (fun acc attr => coutLine acc ("  * " ++ attr.1 ++ " : " ++ attr.2)) w1
    { returned := outcome.isSuccess, world := w2, submittedRequests := [request] }
  else
    { returned := outcome.isSuccess,
      world := cerrLine w
        ("Error while getting Topic attributes " ++ outcome.error.message),
      submittedRequests := [request] }

end SNS
end AwsDoc

/-- The usage line printed by `main` when `argc != 2` (verbatim, including the
`runn_` typo of the source). -/
def usageMessage : String :=
  "Usage: runn_get_subscription_attributes <subscription_arn>"

/-- Result of one run of `main`: the exit status, the final world, and the
requests submitted to the remote service during the run. -/
structure MainResult (σ : Type) where
  exitCode : Nat
  world : World σ
  submittedRequests : List GetSubscriptionAttributesRequest
  deriving Repr

/-- Embedding of `main`.  `argv` is the full argument vector including the
program name, so `argc` is `argv.length`.  If `argc != 2` the usage line goes
to `std::cout` and the status is 1; otherwise `argv[1]` is passed to
`getSubscriptionAttributes` and the status is 0 regardless of the outcome
(the boolean returned by the helper is discarded, as in the source). -/
def mainFn {σ : Type}
    (snsClient : GetSubscriptionAttributesRequest → GetSubscriptionAttributesOutcome)
    (argv : List String) (w : World σ) : MainResult σ :=
  if argv.length ≠ 2 then
    { exitCode := 1, world := coutLine w usageMessage, submittedRequests := [] }
  else
    let topicARN := argv.getD 1 ""
    let r := AwsDoc.SNS.getSubscriptionAttributes snsClient topicARN w
    { exitCode := 0, world := r.world, submittedRequests := r.submittedRequests }

/-- The line printed for one attribute pair on the success path. -/
def attributeLine (attr : String × String) : String :=
  "  * " ++ attr.1 ++ " : " ++ attr.2

/-- The line printed on the failure path. -/
def errorLine (e : AWSError) : String :=
  "Error while getting Topic attributes " ++ e.message

/-- Folding `coutLine` over a list appends the mapped lines to stdout and
leaves stderr and the rest of the world unchanged. -/
theorem foldl_coutLine_append {σ : Type} (f : String × String → String)
    (l : List (String × String)) (w : World σ) :
    l.foldl (fun acc attr => coutLine acc (f attr)) w =
      { w with stdout := w.stdout ++ l.map f } := by
  induction l generalizing w with
  | nil => simp
  | cons a t ih =>
    rw [List.foldl_cons, ih]
    simp [coutLine]

/-- Closed form of one run of `getSubscriptionAttributes`. -/
theorem getSubscriptionAttributes_eq {σ : Type}
    (snsClient : GetSubscriptionAttributesRequest → GetSubscriptionAttributesOutcome)
    (topicARN : String) (w : World σ) :
    AwsDoc.SNS.getSubscriptionAttributes snsClient topicARN w =
      if (snsClient { subscriptionArn := topicARN }).isSuccess then
        { returned := true,
          world := { w with stdout := w.stdout ++
            ("Topic Attributes:" ::
              (snsClient { subscriptionArn := topicARN }).result.attributes.map attributeLine) },
          submittedRequests := [{ subscriptionArn := topicARN }] }
      else
        { returned := false,
          world := { w with stderr := w.stderr ++
            [errorLine (snsClient { subscriptionArn := topicARN }).error] },
          submittedRequests := [{ subscriptionArn := topicARN }] } := by
  by_cases h : (snsClient { subscriptionArn := topicARN }).isSuccess
  · simp only [AwsDoc.SNS.getSubscriptionAttributes, h, if_true]
    rw [foldl_coutLine_append (fun attr => "  * " ++ attr.1 ++ " : " ++ attr.2)]
    simp [coutLine, attributeLine]
  · simp only [Bool.not_eq_true] at h
    simp [AwsDoc.SNS.getSubscriptionAttributes, h, cerrLine, errorLine]

/-- A client oracle whose single call succeeds with a fixed attribute mapping,
used to witness the success-path theorems on concrete inputs. -/
def successClient :
    GetSubscriptionAttributesRequest → GetSubscriptionAttributesOutcome :=
  fun _ =>
    { isSuccess := true,
      result := { attributes :=
        [("Owner", "123456789012"), ("PendingConfirmation", "false")] },
      error := { message := "" } }

/-- A client oracle whose single call fails with a fixed error message, used
to witness the failure-path theorems on concrete inputs. -/
def failureClient :
    GetSubscriptionAttributesRequest → GetSubscriptionAttributesOutcome :=
  fun _ =>
    { isSuccess := false,
      result := { attributes := [] },
      error := { message := "Authorization denied" } }

/-- A client oracle written differently from `successClient` but agreeing with
it on the request for `"sub-arn"`, used to witness the determinism theorem. -/
def altClient :
    GetSubscriptionAttributesRequest → GetSubscriptionAttributesOutcome :=
  fun request =>
    if request.subscriptionArn = "sub-arn" then
      { isSuccess := true,
        result := { attributes :=
          [("Owner", "123456789012"), ("PendingConfirmation", "false")] },
        error := { message := "" } }
    else
      { isSuccess := false,
        result := { attributes := [] },
        error := { message := "NotFound" } }

/-- The world with nothing written to either console stream. -/
def emptyWorld : World Unit := { stdout := [], stderr := [], rest := () }

/-- C1: for every outcome whose success flag is true, `getSubscriptionAttributes`
prints every key/value pair present in the outcome's attribute mapping and
returns true. -/
theorem claim_C1_success_prints_all_pairs_and_returns_true {σ : Type}
    (snsClient : GetSubscriptionAttributesRequest → GetSubscriptionAttributesOutcome)
    (topicARN : String) (w : World σ)
    (h : (snsClient { subscriptionArn := topicARN }).isSuccess = true) :
    (AwsDoc.SNS.getSubscriptionAttributes snsClient topicARN w).returned = true ∧
    ∀ attr ∈ (snsClient { subscriptionArn := topicARN }).result.attributes,
      attributeLine attr ∈
        (AwsDoc.SNS.getSubscriptionAttributes snsClient topicARN w).world.stdout := by
  rw [getSubscriptionAttributes_eq, if_pos h]
  refine ⟨rfl, fun attr hm => ?_⟩
  simp only [List.mem_append, List.mem_cons, List.mem_map]
  exact Or.inr (Or.inr ⟨attr, hm, rfl⟩)

/-- Witness for C1 at a concrete successful client, identifier and world. -/
theorem claim_C1_witness :
    (successClient { subscriptionArn := "sub-arn" }).isSuccess = true ∧
    ((AwsDoc.SNS.getSubscriptionAttributes successClient "sub-arn" emptyWorld).returned = true ∧
     ∀ attr ∈ (successClient { subscriptionArn := "sub-arn" }).result.attributes,
       attributeLine attr ∈
         (AwsDoc.SNS.getSubscriptionAttributes successClient "sub-arn" emptyWorld).world.stdout) :=
  ⟨rfl, claim_C1_success_prints_all_pairs_and_returns_true successClient "sub-arn" emptyWorld rfl⟩

/-- C2: for every outcome whose success flag is false, `getSubscriptionAttributes`
prints to standard error a message containing the outcome's error text and
returns false. -/
theorem claim_C2_failure_prints_error_text_and_returns_false {σ : Type}
    (snsClient : GetSubscriptionAttributesRequest → GetSubscriptionAttributesOutcome)
    (topicARN : String) (w : World σ)
    (h : (snsClient { subscriptionArn := topicARN }).isSuccess = false) :
    (AwsDoc.SNS.getSubscriptionAttributes snsClient topicARN w).returned = false ∧
    ∃ line ∈ (AwsDoc.SNS.getSubscriptionAttributes snsClient topicARN w).world.stderr,
      ∃ pre suf : String,
        line = pre ++ (snsClient { subscriptionArn := topicARN }).error.message ++ suf := by
  rw [getSubscriptionAttributes_eq, if_neg (by simp [h])]
  refine ⟨rfl, errorLine (snsClient { subscriptionArn := topicARN }).error, by simp,
    "Error while getting Topic attributes ", "", ?_⟩
  simp [errorLine]

/-- Witness for C2 at a concrete failing client, identifier and world. -/
theorem claim_C2_witness :
    (failureClient { subscriptionArn := "sub-arn" }).isSuccess = false ∧
    ((AwsDoc.SNS.getSubscriptionAttributes failureClient "sub-arn" emptyWorld).returned = false ∧
     ∃ line ∈ (AwsDoc.SNS.getSubscriptionAttributes failureClient "sub-arn" emptyWorld).world.stderr,
       ∃ pre suf : String,
         line = pre ++ (failureClient { subscriptionArn := "sub-arn" }).error.message ++ suf) :=
  ⟨rfl, claim_C2_failure_prints_error_text_and_returns_false failureClient "sub-arn" emptyWorld rfl⟩

/-- C3: whenever `argc != 2`, `main` prints the usage message to standard
output, exits with status 1, and submits no request to the remote service. -/
theorem claim_C3_bad_argc_usage_and_exit_1 {σ : Type}
    (snsClient : GetSubscriptionAttributesRequest → GetSubscriptionAttributesOutcome)
    (argv : List String) (w : World σ) (h : argv.length ≠ 2) :
    mainFn snsClient argv w =
      { exitCode := 1,
        world := { w with stdout := w.stdout ++ [usageMessage] },
        submittedRequests := [] } := by
  simp [mainFn, h, coutLine]

/-- Witness for C3 at a concrete one-element argument vector. -/
theorem claim_C3_witness :
    (["run_get_subscription_attributes"] : List String).length ≠ 2 ∧
    mainFn failureClient ["run_get_subscription_attributes"] emptyWorld =
      { exitCode := 1,
        world := { emptyWorld with stdout := emptyWorld.stdout ++ [usageMessage] },
        submittedRequests := [] } :=
  ⟨by decide,
   claim_C3_bad_argc_usage_and_exit_1 failureClient
     ["run_get_subscription_attributes"] emptyWorld (by decide)⟩

/-- C4: whenever `argc == 2`, `main` exits with status 0, for every client
oracle, hence regardless of whether the remote outcome succeeds or fails. -/
theorem claim_C4_two_args_exit_0_regardless_of_outcome {σ : Type}
    (snsClient : GetSubscriptionAttributesRequest → GetSubscriptionAttributesOutcome)
    (argv : List String) (w : World σ) (h : argv.length = 2) :
    (mainFn snsClient argv w).exitCode = 0 := by
  simp [mainFn, h]

/-- Witness for C4 at a concrete two-element argument vector and a failing
client. -/
theorem claim_C4_witness :
    (["run_get_subscription_attributes", "sub-arn"] : List String).length = 2 ∧
    (mainFn failureClient ["run_get_subscription_attributes", "sub-arn"]
      emptyWorld).exitCode = 0 :=
  ⟨by decide,
   claim_C4_two_args_exit_0_regardless_of_outcome failureClient
     ["run_get_subscription_attributes", "sub-arn"] emptyWorld (by decide)⟩

/-- C5: for every identifier string, including the empty string, the function
submits to the remote call exactly one request whose subscription ARN field is
exactly that string, with no local validation. -/
theorem claim_C5_no_validation_request_built_verbatim {σ : Type}
    (snsClient : GetSubscriptionAttributesRequest → GetSubscriptionAttributesOutcome)
    (topicARN : String) (w : World σ) :
    (AwsDoc.SNS.getSubscriptionAttributes snsClient topicARN w).submittedRequests =
      [{ subscriptionArn := topicARN }] := by
  rw [getSubscriptionAttributes_eq]
  split <;> rfl

/-- C6: on every invocation and under every outcome, the remote call is made
exactly once (in particular it is never retried after a failure). -/
theorem claim_C6_remote_call_made_exactly_once {σ : Type}
    (snsClient : GetSubscriptionAttributesRequest → GetSubscriptionAttributesOutcome)
    (topicARN : String) (w : World σ) :
    (AwsDoc.SNS.getSubscriptionAttributes snsClient topicARN w).submittedRequests.length = 1 := by
  rw [getSubscriptionAttributes_eq]
  split <;> rfl

/-- C7: console output is the only side effect: the abstract non-console state
is unchanged, and each console stream is only appended to.  (The identifier
and the configuration are taken by const reference and never written.) -/
theorem claim_C7_console_output_only_side_effect {σ : Type}
    (snsClient : GetSubscriptionAttributesRequest → GetSubscriptionAttributesOutcome)
    (topicARN : String) (w : World σ) :
    (AwsDoc.SNS.getSubscriptionAttributes snsClient topicARN w).world.rest = w.rest ∧
    (∃ newOut, (AwsDoc.SNS.getSubscriptionAttributes snsClient topicARN w).world.stdout =
        w.stdout ++ newOut) ∧
    (∃ newErr, (AwsDoc.SNS.getSubscriptionAttributes snsClient topicARN w).world.stderr =
        w.stderr ++ newErr) := by
  rw [getSubscriptionAttributes_eq]
  split
  · exact ⟨rfl, ⟨_, rfl⟩, ⟨[], by simp⟩⟩
  · exact ⟨rfl, ⟨[], by simp⟩, ⟨_, rfl⟩⟩

/-- C8: every run produces exactly one of the two output forms: on success the
attribute listing (stdout grows, stderr untouched), on failure the error
message (stderr grows, stdout untouched); never both and never neither. -/
theorem claim_C8_exactly_one_output_form {σ : Type}
    (snsClient : GetSubscriptionAttributesRequest → GetSubscriptionAttributesOutcome)
    (topicARN : String) (w : World σ) :
    ((snsClient { subscriptionArn := topicARN }).isSuccess = true ∧
      (AwsDoc.SNS.getSubscriptionAttributes snsClient topicARN w).world.stdout ≠ w.stdout ∧
      (AwsDoc.SNS.getSubscriptionAttributes snsClient topicARN w).world.stderr = w.stderr) ∨
    ((snsClient { subscriptionArn := topicARN }).isSuccess = false ∧
      (AwsDoc.SNS.getSubscriptionAttributes snsClient topicARN w).world.stdout = w.stdout ∧
      (AwsDoc.SNS.getSubscriptionAttributes snsClient topicARN w).world.stderr ≠ w.stderr) := by
  rw [getSubscriptionAttributes_eq]
  by_cases h : (snsClient { subscriptionArn := topicARN }).isSuccess = true
  · rw [if_pos h]
    refine Or.inl ⟨h, fun hc => ?_, rfl⟩
    have := congrArg List.length hc
    simp at this
  · rw [if_neg h]
    refine Or.inr ⟨by simpa using h, rfl, fun hc => ?_⟩
    have := congrArg List.length hc
    simp at this

/-- C9: the two output forms go to different streams: a successful outcome
writes the attribute listing to standard output leaving standard error
untouched, a failing outcome writes the error line to standard error leaving
standard output untouched, and the usage message printed by `main` on a bad
argument count goes to standard output. -/
theorem claim_C9_output_streams {σ : Type}
    (snsClient : GetSubscriptionAttributesRequest → GetSubscriptionAttributesOutcome)
    (topicARN : String) (argv : List String) (w : World σ) (h : argv.length ≠ 2) :
    (((snsClient { subscriptionArn := topicARN }).isSuccess = true ∧
        (AwsDoc.SNS.getSubscriptionAttributes snsClient topicARN w).world.stdout =
          w.stdout ++ ("Topic Attributes:" ::
            (snsClient { subscriptionArn := topicARN }).result.attributes.map attributeLine) ∧
        (AwsDoc.SNS.getSubscriptionAttributes snsClient topicARN w).world.stderr = w.stderr) ∨
     ((snsClient { subscriptionArn := topicARN }).isSuccess = false ∧
        (AwsDoc.SNS.getSubscriptionAttributes snsClient topicARN w).world.stdout = w.stdout ∧
        (AwsDoc.SNS.getSubscriptionAttributes snsClient topicARN w).world.stderr =
          w.stderr ++ [errorLine (snsClient { subscriptionArn := topicARN }).error])) ∧
    ((mainFn snsClient argv w).world.stdout = w.stdout ++ [usageMessage] ∧
     (mainFn snsClient argv w).world.stderr = w.stderr) := by
  constructor
  · rw [getSubscriptionAttributes_eq]
    by_cases hs : (snsClient { subscriptionArn := topicARN }).isSuccess = true
    · rw [if_pos hs]
      exact Or.inl ⟨hs, rfl, rfl⟩
    · rw [if_neg hs]
      exact Or.inr ⟨by simpa using hs, rfl, rfl⟩
  · simp [mainFn, h, coutLine]

/-- Witness for C9 at a concrete client, identifier, bad argument vector and
world. -/
theorem claim_C9_witness :
    (["run_get_subscription_attributes"] : List String).length ≠ 2 ∧
    ((((successClient { subscriptionArn := "sub-arn" }).isSuccess = true ∧
        (AwsDoc.SNS.getSubscriptionAttributes successClient "sub-arn" emptyWorld).world.stdout =
          emptyWorld.stdout ++ ("Topic Attributes:" ::
            (successClient { subscriptionArn := "sub-arn" }).result.attributes.map attributeLine) ∧
        (AwsDoc.SNS.getSubscriptionAttributes successClient "sub-arn" emptyWorld).world.stderr =
          emptyWorld.stderr) ∨
      ((successClient { subscriptionArn := "sub-arn" }).isSuccess = false ∧
        (AwsDoc.SNS.getSubscriptionAttributes successClient "sub-arn" emptyWorld).world.stdout =
          emptyWorld.stdout ∧
        (AwsDoc.SNS.getSubscriptionAttributes successClient "sub-arn" emptyWorld).world.stderr =
          emptyWorld.stderr ++
            [errorLine (successClient { subscriptionArn := "sub-arn" }).error])) ∧
     ((mainFn successClient ["run_get_subscription_attributes"] emptyWorld).world.stdout =
        emptyWorld.stdout ++ [usageMessage] ∧
      (mainFn successClient ["run_get_subscription_attributes"] emptyWorld).world.stderr =
        emptyWorld.stderr)) :=
  ⟨by decide,
   claim_C9_output_streams successClient "sub-arn"
     ["run_get_subscription_attributes"] emptyWorld (by decide)⟩

/-- C10: determinism in the remote outcome: two runs given the same identifier
and clients that return the same outcome for the request built from it produce
identical results (same printed output, same returned boolean, same submitted
requests). -/
theorem claim_C10_deterministic_in_outcome {σ : Type}
    (client1 client2 : GetSubscriptionAttributesRequest → GetSubscriptionAttributesOutcome)
    (topicARN : String) (w : World σ)
    (h : client1 { subscriptionArn := topicARN } = client2 { subscriptionArn := topicARN }) :
    AwsDoc.SNS.getSubscriptionAttributes client1 topicARN w =
      AwsDoc.SNS.getSubscriptionAttributes client2 topicARN w := by
  rw [getSubscriptionAttributes_eq, getSubscriptionAttributes_eq, h]

/-- Witness for C10 at two syntactically different clients agreeing on the
request for `"sub-arn"`. -/
theorem claim_C10_witness :
    successClient { subscriptionArn := "sub-arn" } =
      altClient { subscriptionArn := "sub-arn" } ∧
    AwsDoc.SNS.getSubscriptionAttributes successClient "sub-arn" emptyWorld =
      AwsDoc.SNS.getSubscriptionAttributes altClient "sub-arn" emptyWorld :=
  ⟨by decide,
   claim_C10_deterministic_in_outcome successClient altClient "sub-arn" emptyWorld (by decide)⟩
